import Mathlib

/-!
Shallow embedding of the SNAPwise-NYC server core (`src/server/index.js`).

Numbers: JavaScript floating-point values are idealised as exact rationals
(`ℚ`) for parsed inputs and exact reals (`ℝ`) for computed distances, with the
special values NaN and ±Infinity modelled explicitly by the `JsNum` type where
the code can observe them (`Number.isFinite` guards, comparisons against a
possibly-NaN radius).  External collaborators (the CSV stream, the Nominatim
and USPS HTTP services) are modelled as explicit inputs.
-/

namespace SnapWise

/-- Model of a JavaScript number as it flows out of `parseFloat` / `parseInt`:
either NaN, an infinity, or a finite value (idealised as a rational). -/
inductive JsNum where
  | nan
  | posInf
  | negInf
  | fin (q : ℚ)
deriving DecidableEq

/-- Model of `Number.isFinite` on a `JsNum`. -/
def JsNum.isFinite : JsNum → Bool
  | .fin _ => true
  | _ => false

/-- JavaScript `<=` on numbers: false whenever either side is NaN. -/
def jsLe : JsNum → JsNum → Bool
  | .nan, _ => false
  | _, .nan => false
  | .negInf, _ => true
  | _, .posInf => true
  | .posInf, _ => false
  | .fin _, .negInf => false
  | .fin x, .fin y => decide (x ≤ y)

/-- The whitespace characters skipped by the JavaScript numeric parsers. -/
def isJsSpace (c : Char) : Bool :=
  c == ' ' || c == '\t' || c == '\n' || c == '\r'

/-- JavaScript `s.toLowerCase()` (over the ASCII range the code compares). -/
def jsToLower (s : String) : String := String.mk (s.data.map Char.toLower)

/-- JavaScript `s.toUpperCase()` (over the ASCII range the code compares). -/
def jsToUpper (s : String) : String := String.mk (s.data.map Char.toUpper)

/-- JavaScript `s.trim()`: strip leading and trailing whitespace. -/
def jsTrim (s : String) : String :=
  String.mk (((s.data.dropWhile isJsSpace).reverse.dropWhile isJsSpace).reverse)

/-- Does `needle` occur as a contiguous sublist of `hay`? -/
def containsSub (hay needle : List Char) : Bool :=
  match hay with
  | [] => needle.isEmpty
  | _ :: rest => needle.isPrefixOf hay || containsSub rest needle

/-- JavaScript `s.includes(sub)`. -/
def includesJs (s sub : String) : Bool := containsSub s.data sub.data

/-- Numeric value of a decimal digit character. -/
def digitVal (c : Char) : ℕ := c.toNat - '0'.toNat

/-- Value of a list of decimal digit characters, most significant first. -/
def digitsToNat (cs : List Char) : ℕ :=
  cs.foldl (fun acc c => 10 * acc + digitVal c) 0

/-- Split an optional leading sign; returns (isNegative, rest). -/
def splitSign : List Char → Bool × List Char
  | '-' :: rest => (true, rest)
  | '+' :: rest => (false, rest)
  | cs => (false, cs)

/-- Exponent value of a signed digit string (empty digits contribute 0,
matching `parseFloat` taking the longest valid numeric prefix). -/
def parseSignedExp (cs : List Char) : ℤ :=
  let p := splitSign cs
  let ds := p.2.takeWhile Char.isDigit
  if ds.isEmpty then 0
  else if p.1 then -(digitsToNat ds : ℤ) else (digitsToNat ds : ℤ)

/-- Exponent part (`e`/`E` followed by a signed integer) of a decimal literal. -/
def parseExp : List Char → ℤ
  | 'e' :: rest => parseSignedExp rest
  | 'E' :: rest => parseSignedExp rest
  | _ => 0

/-- The exact rational value `m * 10 ^ e` of a decimal literal with integer
mantissa `m` and decimal exponent `e`. -/
def decValue (m : ℤ) (e : ℤ) : ℚ :=
  if 0 ≤ e then mkRat (m * (10 : ℤ) ^ e.toNat) 1 else mkRat m ((10 : ℕ) ^ (-e).toNat)

/-- Model of the JavaScript `parseFloat` builtin: skip leading whitespace,
then read the longest prefix that is a signed decimal literal (optionally with
a fraction and exponent) or `Infinity`; NaN when no such prefix exists. -/
def parseFloatJs (s : String) : JsNum :=
  let cs := s.data.dropWhile isJsSpace
  let p := splitSign cs
  if "Infinity".data.isPrefixOf p.2 then (if p.1 then JsNum.negInf else JsNum.posInf)
  else
    let ip := p.2.takeWhile Char.isDigit
    let r1 := p.2.dropWhile Char.isDigit
    let fpr :=
      match r1 with
      | '.' :: r => (r.takeWhile Char.isDigit, r.dropWhile Char.isDigit)
      | _ => (([] : List Char), r1)
    if ip.isEmpty && fpr.1.isEmpty then JsNum.nan
    else
      let m : ℤ := (digitsToNat ip * 10 ^ fpr.1.length + digitsToNat fpr.1 : ℕ)
      let e : ℤ := parseExp fpr.2 - (fpr.1.length : ℤ)
      JsNum.fin (decValue (if p.1 then -m else m) e)

/-- Model of the JavaScript `parseInt(s, 10)` builtin: skip leading
whitespace, optional sign, then the longest prefix of decimal digits;
`none` (NaN) when there is no digit. -/
def parseIntJs (s : String) : Option ℤ :=
  let cs := s.data.dropWhile isJsSpace
  let p := splitSign cs
  let ds := p.2.takeWhile Char.isDigit
  if ds.isEmpty then none
  else some (if p.1 then -(digitsToNat ds : ℤ) else (digitsToNat ds : ℤ))

/-- JavaScript `value || dflt` on an optional string (`none` models
`undefined`/`null`; the empty string is the only falsy string). -/
def jsOr (value : Option String) (dflt : String) : String :=
  match value with
  | none => dflt
  | some s => if s = "" then dflt else s

/-- Function `toZip5` from `src/server/index.js`: `null`/`undefined` give `''`;
otherwise strip non-digits, keep the first 5 digits, and left-pad with `'0'`
to length 5 (`padStart(5, '0')`). -/
def toZip5 (value : Option String) : String :=
  match value with
  | none => ""
  | some v =>
    let digits := (v.data.filter Char.isDigit).take 5
    String.mk (List.replicate (5 - digits.length) '0' ++ digits)

/-- Function `parseBoolean` from `src/server/index.js` (CSV field variant: the value is
an optional string): trim, lower-case, compare against true/1/yes. -/
def parseBoolean (value : Option String) : Bool :=
  let s := jsToLower (jsTrim (jsOr value ""))
  s == "true" || s == "1" || s == "yes"

/-- A normalized store record (the element type of the in-memory `stores`
collection).  Coordinates are the exact parsed values, hence rationals. -/
structure Store where
  id : String
  name : String
  address : String
  city : String
  borough : String
  zip : String
  county : String
  storeType : String
  isHealthyStore : Bool
  aiScore : Option ℤ
  aiReason : String
  aiEconomyScore : Option ℤ
  aiEconomyReason : String
  latitude : ℚ
  longitude : ℚ
deriving DecidableEq

/-- One raw CSV row as delivered by the csv-parser collaborator: each field
the code reads, as an optional string (`none` = column absent). -/
structure CsvRow where
  latitude : Option String
  longitude : Option String
  recordId : Option String
  objectId : Option String
  storeName : Option String
  storeStreetAddress : Option String
  city : Option String
  county : Option String
  zipCode : Option String
  storeType : Option String
  isHealthyStore : Option String
  aiHealthScore : Option String
  aiHealthReason : Option String
  aiEconomyScore : Option String
  aiEconomyReason : Option String

/-- Evaluation of `parseFloat(row[...])` on a possibly-absent field: an absent field is
`undefined`, and `parseFloat(undefined)` is NaN. -/
def parseFloatField (o : Option String) : JsNum :=
  match o with
  | none => JsNum.nan
  | some s => parseFloatJs s

/-- The AI score parsing block of `loadStoresFromCsv`: absent or blank field
gives no score; otherwise `parseInt` and clamp into `[lo, hi]` via
`Math.max(lo, Math.min(hi, n))`; unparsable gives no score. -/
def parseScore (raw : Option String) (lo hi : ℤ) : Option ℤ :=
  match raw with
  | none => none
  | some s =>
    if jsTrim s = "" then none
    else
      match parseIntJs s with
      | none => none
      | some n => some (max lo (min hi n))

/-- The per-row body of `loadStoresFromCsv`'s `data` handler: drop the row if
latitude or longitude does not parse to a finite number, otherwise build the
store record. -/
def rowToStore (row : CsvRow) : Option Store :=
  match parseFloatField row.latitude, parseFloatField row.longitude with
  | JsNum.fin lat, JsNum.fin lon =>
    some {
      id := jsOr row.recordId (jsOr row.objectId "")
      name := jsOr row.storeName ""
      address := jsOr row.storeStreetAddress ""
      city := jsOr row.city ""
      borough := jsToUpper (jsOr row.county "")
      zip := toZip5 row.zipCode
      county := jsOr row.county ""
      storeType := jsOr row.storeType ""
      isHealthyStore := parseBoolean row.isHealthyStore
      aiScore := parseScore row.aiHealthScore 1 10
      aiReason := jsOr row.aiHealthReason ""
      aiEconomyScore := parseScore row.aiEconomyScore 1 5
      aiEconomyReason := jsOr row.aiEconomyReason ""
      latitude := lat
      longitude := lon }
  | _, _ => none

/-- Function `loadStoresFromCsv`: the rows kept by the per-row handler, in order. -/
def loadStoresFromCsv (rows : List CsvRow) : List Store :=
  rows.filterMap rowToStore

/-- Helper `toRad` from `haversineMeters`: degrees to radians. -/
noncomputable def toRad (d : ℝ) : ℝ := d * Real.pi / 180

/-- JavaScript `Math.atan2 (y, x)` (the quadrant-aware arctangent). -/
noncomputable def atan2 (y x : ℝ) : ℝ :=
  if 0 < x then Real.arctan (y / x)
  else if x < 0 then
    (if 0 ≤ y then Real.arctan (y / x) + Real.pi else Real.arctan (y / x) - Real.pi)
  else if 0 < y then Real.pi / 2
  else if y < 0 then -(Real.pi / 2)
  else 0

/-- The intermediate `a` of `haversineMeters`. -/
noncomputable def havA (lat1 lon1 lat2 lon2 : ℝ) : ℝ :=
  Real.sin (toRad (lat2 - lat1) / 2) * Real.sin (toRad (lat2 - lat1) / 2) +
    Real.cos (toRad lat1) * Real.cos (toRad lat2) *
      Real.sin (toRad (lon2 - lon1) / 2) * Real.sin (toRad (lon2 - lon1) / 2)

/-- Function `haversineMeters` from `src/server/index.js`, over idealised reals:
`R * 2 * atan2(sqrt a, sqrt (1 - a))` with Earth radius 6,371,000 m. -/
noncomputable def haversineMeters (lat1 lon1 lat2 lon2 : ℝ) : ℝ :=
  6371000 *
    (2 * atan2 (Real.sqrt (havA lat1 lon1 lat2 lon2))
      (Real.sqrt (1 - havA lat1 lon1 lat2 lon2)))

/-- A store together with its computed `distance_m` (the `{...s, distance_m}`
spread in the `/stores` handler). -/
structure StoreWithDistance where
  store : Store
  distance_m : ℝ

/-- The filter `s.distance_m <= radiusMeters` where the radius may be NaN or
±Infinity: NaN compares false with everything. -/
noncomputable def jsLeRad (d : ℝ) (r : JsNum) : Bool :=
  match r with
  | .fin q => decide (d ≤ (q : ℝ))
  | .posInf => true
  | _ => false

/-- The end index that `slice(0, limit)` uses for a finite numeric limit
(truncation; negative limits give 0). -/
def JsNum.sliceCount : JsNum → ℕ
  | .fin q => (⌊q⌋).toNat
  | _ => 0

/-- The limit normalization of the `/stores` handler: `'unlimited'`
(case-insensitively) gives Infinity, otherwise `parseInt`; any non-finite or
non-positive result is replaced by 200. -/
def effectiveLimit (rawLimit : String) : JsNum :=
  let limit :=
    if jsToLower rawLimit = "unlimited" then JsNum.posInf
    else
      match parseIntJs rawLimit with
      | none => JsNum.nan
      | some n => JsNum.fin (n : ℚ)
  if !limit.isFinite || jsLe limit (JsNum.fin 0) then JsNum.fin 200 else limit

/-- The query pipeline of the `/stores` handler (lines 223-241): health
filter, store-type filter, map to distances, radius filter, ascending stable
sort by distance, and the slice applied when the limit is finite. -/
noncomputable def queryStores (stores : List Store) (lat lng : ℚ) (radiusMeters : JsNum)
    (healthyOnly storeType : String) (limit : JsNum) : List StoreWithDistance :=
  let filtered :=
    if healthyOnly = "true" then stores.filter (fun s => s.isHealthyStore)
    else if healthyOnly = "false" then stores.filter (fun s => !s.isHealthyStore)
    else stores
  let filtered2 :=
    if storeType ≠ "" then
      filtered.filter (fun s => jsToLower s.storeType == jsToLower storeType)
    else filtered
  let withDistance :=
    ((filtered2.map (fun s =>
        ({ store := s,
           distance_m := haversineMeters (lat : ℝ) (lng : ℝ) (s.latitude : ℝ) (s.longitude : ℝ) }
          : StoreWithDistance)))
        |>.filter (fun s => jsLeRad s.distance_m radiusMeters))
        |>.mergeSort (fun a b => decide (a.distance_m ≤ b.distance_m))
  if limit.isFinite then withDistance.take limit.sliceCount else withDistance

/-- The error the `/stores` handler reports with HTTP 400. -/
inductive QueryError where
  | invalidInput
deriving DecidableEq

/-- The query-string parameters the `/stores` handler reads
(`none` = parameter absent). -/
structure StoresQuery where
  lat : Option String
  lng : Option String
  radius : Option String
  isHealthy : Option String
  storeType : Option String
  limit : Option String

/-- The `/stores` handler: parse the parameters (with their `|| dflt`
defaults), reject a non-finite origin with InvalidInput, otherwise run the
query pipeline. -/
noncomputable def storesHandler (stores : List Store) (q : StoresQuery) :
    Except QueryError (List StoreWithDistance) :=
  let lat := parseFloatJs (jsOr q.lat "0")
  let lng := parseFloatJs (jsOr q.lng "0")
  let radiusMeters := parseFloatJs (jsOr q.radius "1609")
  let healthyOnly := jsToLower (jsOr q.isHealthy "any")
  let storeType := jsTrim (jsOr q.storeType "")
  let limit := effectiveLimit (jsOr q.limit "200")
  match lat, lng with
  | JsNum.fin la, JsNum.fin ln =>
      Except.ok (queryStores stores la ln radiusMeters healthyOnly storeType limit)
  | _, _ => Except.error QueryError.invalidInput

/-- A resolved coordinate (store coordinates and ZIP resolution results are
exact parsed values, hence rationals). -/
structure Coordinate where
  latitude : ℚ
  longitude : ℚ
deriving DecidableEq

/-- Function `getBoroughCoordinates`: fixed borough centers (decimal degrees written
as exact rationals), Manhattan as the default for an unknown borough name. -/
def getBoroughCoordinates (borough : String) : Coordinate :=
  match jsToUpper borough with
  | "BRONX" => ⟨mkRat 408448 10000, mkRat (-738648) 10000⟩
  | "BROOKLYN" => ⟨mkRat 406782 10000, mkRat (-739442) 10000⟩
  | "MANHATTAN" => ⟨mkRat 407831 10000, mkRat (-739712) 10000⟩
  | "QUEENS" => ⟨mkRat 407282 10000, mkRat (-737949) 10000⟩
  | "STATEN ISLAND" => ⟨mkRat 405795 10000, mkRat (-741502) 10000⟩
  | _ => ⟨mkRat 407831 10000, mkRat (-739712) 10000⟩

/-- Function `getNYCApproximateCoordinates`: coordinates keyed by the ZIP's first
three characters (`zip.substring(0, 3)`); `null` when the table has no entry. -/
def getNYCApproximateCoordinates (zip : String) : Option Coordinate :=
  match String.mk (zip.data.take 3) with
  | "100" => some ⟨mkRat 407589 10000, mkRat (-739851) 10000⟩
  | "101" => some ⟨mkRat 407589 10000, mkRat (-739851) 10000⟩
  | "102" => some ⟨mkRat 407589 10000, mkRat (-739851) 10000⟩
  | "103" => some ⟨mkRat 405795 10000, mkRat (-741502) 10000⟩
  | "104" => some ⟨mkRat 408448 10000, mkRat (-738648) 10000⟩
  | "110" => some ⟨mkRat 407282 10000, mkRat (-737949) 10000⟩
  | "111" => some ⟨mkRat 407282 10000, mkRat (-737949) 10000⟩
  | "112" => some ⟨mkRat 406782 10000, mkRat (-739442) 10000⟩
  | "113" => some ⟨mkRat 407282 10000, mkRat (-737949) 10000⟩
  | "114" => some ⟨mkRat 407282 10000, mkRat (-737949) 10000⟩
  | "116" => some ⟨mkRat 407282 10000, mkRat (-737949) 10000⟩
  | _ => none

/-- The external collaborators of the `/zip/:zip` handler, per requested ZIP:
the NYC ZIP CSV (ZIP to borough; `none` = not listed or file missing), the
Nominatim geocoder (`none` = network failure or non-ok response, otherwise the
parsed result list), and the USPS validator (`none` = network failure or
non-ok response, otherwise the response body text). -/
structure ZipEnv where
  nycZips : String → Option String
  nominatim : String → Option (List Coordinate)
  usps : String → Option String

/-- The coordinate the Nominatim tier yields: the first element of a
successful, non-empty result list. -/
def nominatimYields (env : ZipEnv) (zip : String) : Option Coordinate :=
  match env.nominatim zip with
  | some (c :: _) => some c
  | _ => none

/-- The coordinate the USPS tier yields: a successful response body without
an `<Error>` marker, combined with the ZIP-prefix heuristic table. -/
def uspsYields (env : ZipEnv) (zip : String) : Option Coordinate :=
  match env.usps zip with
  | some text =>
    if includesJs text "<Error>" = false then getNYCApproximateCoordinates zip else none
  | none => none

/-- The errors the `/zip/:zip` handler reports with HTTP 400 / 404. -/
inductive ZipError where
  | invalidInput
  | notFound
deriving DecidableEq

/-- Outcome of one `/zip/:zip` request: the response, the `zipCentroids`
cache afterwards, and the external network calls issued (in order). -/
structure ZipResult where
  result : Except ZipError Coordinate
  cache : String → Option Coordinate
  networkCalls : List String

/-- Assignment `zipCentroids[zip] = c` (the resolver's cache write). -/
def cacheInsert (cache : String → Option Coordinate) (zip : String) (c : Coordinate) :
    String → Option Coordinate :=
  fun z => if z = zip then some c else cache z

/-- The `/zip/:zip` handler (the ZIP Resolver): normalize, reject an empty
normalization, then try the centroid cache, the NYC ZIP list with borough
centers, Nominatim (cache on success), and USPS validation plus the prefix
heuristic (cache on success); NotFound when every tier fails. -/
def resolveZip (env : ZipEnv) (cache : String → Option Coordinate) (zipParam : String) :
    ZipResult :=
  let zip := toZip5 (some zipParam)
  if zip = "" then ⟨Except.error ZipError.invalidInput, cache, []⟩
  else
    match cache zip with
    | some centroid => ⟨Except.ok centroid, cache, []⟩
    | none =>
      match env.nycZips zip with
      | some borough => ⟨Except.ok (getBoroughCoordinates borough), cache, []⟩
      | none =>
        match nominatimYields env zip with
        | some coords => ⟨Except.ok coords, cacheInsert cache zip coords, ["nominatim"]⟩
        | none =>
          match uspsYields env zip with
          | some nycCoords =>
            ⟨Except.ok nycCoords, cacheInsert cache zip nycCoords, ["nominatim", "usps"]⟩
          | none => ⟨Except.error ZipError.notFound, cache, ["nominatim", "usps"]⟩

/-! ### Helper lemmas -/

/-- Normalizing an actual string always yields exactly 5 characters (the
`padStart(5, '0')` of at most five digits). -/
theorem toZip5_some_length (v : String) : (toZip5 (some v)).data.length = 5 := by
  unfold toZip5
  simp only [List.length_append, List.length_replicate, List.length_take]
  omega

/-- Hence `toZip5` of a string is never the empty string. -/
theorem toZip5_some_ne_empty (v : String) : toZip5 (some v) ≠ "" := by
  intro h
  have h5 := toZip5_some_length v
  rw [h] at h5
  simp at h5

/-- A `JsNum` is finite exactly when it is a `fin` value. -/
theorem JsNum.isFinite_iff {n : JsNum} : n.isFinite = true ↔ ∃ q, n = JsNum.fin q := by
  cases n <;> simp [JsNum.isFinite]

/-! ### Claims -/

/-- Claim C5 counterexample: the claim says the empty input yields the empty
string, but normalizing the empty string yields `"00000"` (the zero padding
applies to an empty digit list). -/
theorem c5_counterexample : toZip5 (some "") = "00000" ∧ toZip5 (some "") ≠ "" := by
  constructor
  · decide
  · decide

/-- Claim C5 (amended): for every input string, ZIP normalization strips all
non-digit characters, takes the first 5 remaining digits, and left-pads with
zeros to length 5; a null/undefined input yields the empty string, while the
empty string yields `"00000"`; the operation fixes every already-5-digit ZIP,
and normalizing `"123"` yields `"00123"`. -/
theorem c5_zip_normalization :
    (∀ s : String, toZip5 (some s) =
      String.mk (List.replicate (5 - ((s.data.filter Char.isDigit).take 5).length) '0' ++
        (s.data.filter Char.isDigit).take 5)) ∧
    toZip5 none = "" ∧
    toZip5 (some "") = "00000" ∧
    toZip5 (some "123") = "00123" ∧
    (∀ s : String, s.data.length = 5 → (∀ c ∈ s.data, c.isDigit) → toZip5 (some s) = s) := by
  refine ⟨fun s => rfl, rfl, by decide, by decide, fun s h5 hd => ?_⟩
  have hf : s.data.filter Char.isDigit = s.data := List.filter_eq_self.mpr hd
  simp only [toZip5, hf, List.take_of_length_le (le_of_eq h5), h5, Nat.sub_self,
    List.replicate, List.nil_append]

/-- Claim C5 witness: the amended idempotence clause at the 5-digit ZIP
`"12345"`. -/
theorem c5_witness : toZip5 (some "12345") = "12345" :=
  c5_zip_normalization.2.2.2.2 "12345" (by decide) (by decide)

/-- Claim C3: when the 5-digit normalization of the requested ZIP is a key of
the centroid index, the resolver returns that centroid, leaves the cache
unchanged and issues no network call. -/
theorem c3_centroid_short_circuit (env : ZipEnv) (cache : String → Option Coordinate)
    (zipParam : String) (c : Coordinate)
    (h : cache (toZip5 (some zipParam)) = some c) :
    resolveZip env cache zipParam = ⟨Except.ok c, cache, []⟩ := by
  unfold resolveZip
  rw [if_neg (toZip5_some_ne_empty zipParam), h]

/-- Claim C3 witness: a concrete cache holding ZIP 10001. -/
theorem c3_witness :
    resolveZip ⟨fun _ => none, fun _ => none, fun _ => none⟩
      (fun z => if z = "10001" then some ⟨40, mkRat (-73) 1⟩ else none) "10001" =
      ⟨Except.ok ⟨40, mkRat (-73) 1⟩,
        (fun z => if z = "10001" then some ⟨40, mkRat (-73) 1⟩ else none), []⟩ :=
  c3_centroid_short_circuit _ _ _ _ (by decide)

/-- Claim C6: the resolver fails with InvalidInput exactly when the ZIP
normalizes to the empty string, fails with NotFound exactly when the input is
valid but no tier (centroid cache, NYC ZIP table, Nominatim, USPS validation
plus prefix heuristic) produced a coordinate, and otherwise returns a
coordinate. -/
theorem c6_resolver_errors (env : ZipEnv) (cache : String → Option Coordinate)
    (zipParam : String) :
    ((resolveZip env cache zipParam).result = Except.error ZipError.invalidInput ↔
      toZip5 (some zipParam) = "") ∧
    ((resolveZip env cache zipParam).result = Except.error ZipError.notFound ↔
      (toZip5 (some zipParam) ≠ "" ∧ cache (toZip5 (some zipParam)) = none ∧
        env.nycZips (toZip5 (some zipParam)) = none ∧
        nominatimYields env (toZip5 (some zipParam)) = none ∧
        uspsYields env (toZip5 (some zipParam)) = none)) ∧
    ((∃ c, (resolveZip env cache zipParam).result = Except.ok c) ↔
      ((resolveZip env cache zipParam).result ≠ Except.error ZipError.invalidInput ∧
        (resolveZip env cache zipParam).result ≠ Except.error ZipError.notFound)) := by
  by_cases hz : toZip5 (some zipParam) = ""
  · simp [resolveZip, hz]
  · rcases h1 : cache (toZip5 (some zipParam)) with _ | c
    · rcases h2 : env.nycZips (toZip5 (some zipParam)) with _ | b
      · rcases h3 : nominatimYields env (toZip5 (some zipParam)) with _ | c3
        · rcases h4 : uspsYields env (toZip5 (some zipParam)) with _ | c4
          · simp [resolveZip, hz, h1, h2, h3, h4]
          · simp [resolveZip, hz, h1, h2, h3, h4]
        · simp [resolveZip, hz, h1, h2, h3]
      · simp [resolveZip, hz, h1, h2]
    · simp [resolveZip, hz, h1]

/-- Claim C6 witness: with an empty cache and every external tier failing,
resolving an unknown ZIP yields NotFound. -/
theorem c6_witness :
    (resolveZip ⟨fun _ => none, fun _ => none, fun _ => none⟩ (fun _ => none) "99999").result =
      Except.error ZipError.notFound :=
  (c6_resolver_errors ⟨fun _ => none, fun _ => none, fun _ => none⟩ (fun _ => none) "99999").2.1.mpr
    ⟨by decide, rfl, rfl, rfl, rfl⟩

/-- Claim C8: a row is admitted to the store collection exactly when both its
latitude and longitude parse to finite numbers (so no other field's absence
drops a row); every surfaced store comes from such an admitted row, and its
stored coordinates are the parsed ones. -/
theorem c8_row_admission (rows : List CsvRow) (row : CsvRow) :
    ((rowToStore row).isSome = true ↔
      ((parseFloatField row.latitude).isFinite = true ∧
        (parseFloatField row.longitude).isFinite = true)) ∧
    (∀ st, st ∈ loadStoresFromCsv rows → ∃ r ∈ rows, rowToStore r = some st) ∧
    (∀ st, rowToStore row = some st →
      parseFloatField row.latitude = JsNum.fin st.latitude ∧
      parseFloatField row.longitude = JsNum.fin st.longitude) := by
  refine ⟨?_, ?_, ?_⟩
  · rcases hlat : parseFloatField row.latitude with _ | _ | _ | qlat <;>
      rcases hlon : parseFloatField row.longitude with _ | _ | _ | qlon <;>
        simp [rowToStore, hlat, hlon, JsNum.isFinite]
  · intro st hst
    simpa [loadStoresFromCsv, List.mem_filterMap] using hst
  · intro st hst
    rcases hlat : parseFloatField row.latitude with _ | _ | _ | qlat <;>
      rcases hlon : parseFloatField row.longitude with _ | _ | _ | qlon <;>
        rw [rowToStore, hlat, hlon] at hst <;> simp_all
    cases hst
    exact ⟨rfl, rfl⟩

/-- Claim C8 witness: a row with finite coordinates and every other field
absent is admitted. -/
theorem c8_witness :
    (rowToStore ⟨some "40.7", some "-73.9", none, none, none, none, none, none, none, none,
      none, none, none, none, none⟩).isSome = true :=
  (c8_row_admission [] _).1.mpr ⟨by decide, by decide⟩

/-- Quantity `havA` is symmetric under swapping the two points. -/
theorem havA_symm (lat1 lon1 lat2 lon2 : ℝ) :
    havA lat1 lon1 lat2 lon2 = havA lat2 lon2 lat1 lon1 := by
  unfold havA toRad
  have e1 : (lat1 - lat2) * Real.pi / 180 / 2 = -((lat2 - lat1) * Real.pi / 180 / 2) := by ring
  have e2 : (lon1 - lon2) * Real.pi / 180 / 2 = -((lon2 - lon1) * Real.pi / 180 / 2) := by ring
  rw [e1, e2, Real.sin_neg, Real.sin_neg]
  ring

/-- Quantity `havA` vanishes for coincident points. -/
theorem havA_self (lat lon : ℝ) : havA lat lon lat lon = 0 := by
  unfold havA toRad
  have e1 : (lat - lat) * Real.pi / 180 / 2 = 0 := by ring
  have e2 : (lon - lon) * Real.pi / 180 / 2 = 0 := by ring
  rw [e1, e2, Real.sin_zero]
  ring

/-- Quantity `havA` also vanishes for the distinct coordinate pairs (0,0) and (0,360)
(the longitudes differ by a full turn). -/
theorem havA_wraparound : havA 0 0 0 360 = 0 := by
  unfold havA toRad
  have e1 : ((0:ℝ) - 0) * Real.pi / 180 / 2 = 0 := by ring
  have e2 : ((360:ℝ) - 0) * Real.pi / 180 / 2 = Real.pi := by ring
  have e3 : (0:ℝ) * Real.pi / 180 = 0 := by ring
  rw [e1, e2, e3, Real.sin_zero, Real.sin_pi]
  ring

/-- Whenever `havA` is zero the computed distance is zero. -/
theorem haversineMeters_of_havA_zero {lat1 lon1 lat2 lon2 : ℝ}
    (h : havA lat1 lon1 lat2 lon2 = 0) : haversineMeters lat1 lon1 lat2 lon2 = 0 := by
  unfold haversineMeters
  rw [h, Real.sqrt_zero, sub_zero, Real.sqrt_one]
  unfold atan2
  rw [if_pos one_pos]
  norm_num [Real.arctan_zero]

/-- The distance from a point to itself is zero. -/
theorem haversineMeters_self (lat lon : ℝ) : haversineMeters lat lon lat lon = 0 :=
  haversineMeters_of_havA_zero (havA_self lat lon)

/-- Claim C9 counterexample: the finite coordinate pairs (0,0) and (0,360)
have distance zero but are not equal as coordinate pairs (their longitudes 0
and 360 differ), refuting the "zero only if equal" direction. -/
theorem c9_counterexample :
    haversineMeters 0 0 0 360 = 0 ∧ (0:ℝ) ≠ 360 :=
  ⟨haversineMeters_of_havA_zero havA_wraparound, by norm_num⟩

/-- Claim C9 (amended): for all coordinates the distance is symmetric, and it
is zero whenever the two coordinate pairs are equal; the converse ("zero only
if the coordinates are equal") fails, because distinct coordinate pairs can
denote the same point on the sphere (see the counterexample). -/
theorem c9_distance_symm_zero (lat1 lon1 lat2 lon2 : ℝ) :
    haversineMeters lat1 lon1 lat2 lon2 = haversineMeters lat2 lon2 lat1 lon1 ∧
    haversineMeters lat1 lon1 lat1 lon1 = 0 := by
  constructor
  · unfold haversineMeters
    rw [havA_symm]
  · exact haversineMeters_self lat1 lon1

/-- Claim C9 witness: the amended statement at a concrete coordinate pair. -/
theorem c9_witness :
    haversineMeters 40 (-73) 41 (-74) = haversineMeters 41 (-74) 40 (-73) ∧
    haversineMeters 40 (-73) 40 (-73) = 0 :=
  c9_distance_symm_zero 40 (-73) 41 (-74)

/-- If an optional parameter is not a supplied, non-empty, non-finite-parsing
string, then parsing it with the `|| '0'` default yields a finite number. -/
theorem parse_default_finite (o : Option String)
    (h : ¬ ∃ s, o = some s ∧ s ≠ "" ∧ (parseFloatJs s).isFinite = false) :
    (parseFloatJs (jsOr o "0")).isFinite = true := by
  match o with
  | none => decide
  | some s =>
    by_cases hs : s = ""
    · subst hs; decide
    · rw [show jsOr (some s) "0" = s by simp [jsOr, hs]]
      by_contra hni
      exact h ⟨s, rfl, hs, by simpa using hni⟩

/-- Claim C1 counterexample: an empty-string latitude (and longitude)
parameter fails to parse as a finite number (`parseFloat('')` is NaN), yet
the handler does not fail with InvalidInput: the `|| '0'` defaulting replaces
the empty string before parsing, so the query silently proceeds with origin
(0,0). -/
theorem c1_counterexample :
    parseFloatJs "" = JsNum.nan ∧
    storesHandler [] ⟨some "", some "", none, none, none, none⟩ ≠
      Except.error QueryError.invalidInput := by
  refine ⟨by decide, ?_⟩
  have h0 : parseFloatJs (jsOr (some "") "0") = JsNum.fin 0 := by decide
  simp [storesHandler, h0]

/-- Claim C1 (amended): if a supplied, non-empty origin latitude or longitude
parameter fails to parse as a finite number, the handler fails with
InvalidInput and returns no results (the empty string is the one value that
fails to parse yet slips through, because `|| '0'` replaces it). -/
theorem c1_invalid_origin_rejected (stores : List Store) (q : StoresQuery)
    (h : (∃ s, q.lat = some s ∧ s ≠ "" ∧ (parseFloatJs s).isFinite = false) ∨
      (∃ s, q.lng = some s ∧ s ≠ "" ∧ (parseFloatJs s).isFinite = false)) :
    storesHandler stores q = Except.error QueryError.invalidInput := by
  rcases h with ⟨s, hq, hs, hp⟩ | ⟨s, hq, hs, hp⟩
  · have hj : jsOr q.lat "0" = s := by rw [hq]; simp [jsOr, hs]
    rcases he : parseFloatJs s with _ | _ | _ | qv
    · simp [storesHandler, hj, he]
    · simp [storesHandler, hj, he]
    · simp [storesHandler, hj, he]
    · rw [he] at hp; simp [JsNum.isFinite] at hp
  · have hj : jsOr q.lng "0" = s := by rw [hq]; simp [jsOr, hs]
    rcases hl : parseFloatJs (jsOr q.lat "0") with _ | _ | _ | ql
    · simp [storesHandler, hl]
    · simp [storesHandler, hl]
    · simp [storesHandler, hl]
    · rcases he : parseFloatJs s with _ | _ | _ | qv
      · simp [storesHandler, hl, hj, he]
      · simp [storesHandler, hl, hj, he]
      · simp [storesHandler, hl, hj, he]
      · rw [he] at hp; simp [JsNum.isFinite] at hp

/-- Claim C1 witness: a non-numeric latitude parameter is rejected. -/
theorem c1_witness :
    storesHandler [] ⟨some "abc", none, none, none, none, none⟩ =
      Except.error QueryError.invalidInput :=
  c1_invalid_origin_rejected [] _ (Or.inl ⟨"abc", rfl, by decide, by decide⟩)

/-- Claim C10: when the lat and lng parameters are absent the handler does
not fail — each defaults to the string "0", which parses to 0, and the query
runs with origin (0,0); and an InvalidInput rejection can only be caused by a
supplied (non-empty) value whose parse is non-finite. -/
theorem c10_absent_origin_defaults (stores : List Store) (q : StoresQuery)
    (hlat : q.lat = none) (hlng : q.lng = none) :
    storesHandler stores q =
      Except.ok (queryStores stores 0 0 (parseFloatJs (jsOr q.radius "1609"))
        (jsToLower (jsOr q.isHealthy "any")) (jsTrim (jsOr q.storeType ""))
        (effectiveLimit (jsOr q.limit "200"))) ∧
    (∀ q' : StoresQuery, storesHandler stores q' = Except.error QueryError.invalidInput →
      (∃ s, q'.lat = some s ∧ s ≠ "" ∧ (parseFloatJs s).isFinite = false) ∨
      (∃ s, q'.lng = some s ∧ s ≠ "" ∧ (parseFloatJs s).isFinite = false)) := by
  constructor
  · have h0 : parseFloatJs (jsOr (none : Option String) "0") = JsNum.fin 0 := by decide
    simp [storesHandler, hlat, hlng, h0]
  · intro q' herr
    by_contra hn
    obtain ⟨hna, hnb⟩ := not_or.mp hn
    obtain ⟨qa, ha⟩ := JsNum.isFinite_iff.mp (parse_default_finite q'.lat hna)
    obtain ⟨qb, hb⟩ := JsNum.isFinite_iff.mp (parse_default_finite q'.lng hnb)
    simp [storesHandler, ha, hb] at herr

/-- Claim C10 witness: the all-absent query succeeds with origin (0,0). -/
theorem c10_witness :
    storesHandler [] ⟨none, none, none, none, none, none⟩ =
      Except.ok (queryStores [] 0 0 (parseFloatJs (jsOr (none : Option String) "1609"))
        (jsToLower (jsOr (none : Option String) "any"))
        (jsTrim (jsOr (none : Option String) ""))
        (effectiveLimit (jsOr (none : Option String) "200"))) :=
  (c10_absent_origin_defaults [] ⟨none, none, none, none, none, none⟩ rfl rfl).1

/-- The stable ascending sort of the query pipeline produces a list sorted by
distance. -/
theorem sorted_by_distance (l : List StoreWithDistance) :
    List.Sorted (fun a b : StoreWithDistance => a.distance_m ≤ b.distance_m)
      (l.mergeSort (fun a b => decide (a.distance_m ≤ b.distance_m))) := by
  have h := @List.sorted_mergeSort StoreWithDistance
    (fun a b => decide (a.distance_m ≤ b.distance_m))
    (fun a b c hab hbc => by
      simp only [decide_eq_true_eq] at *
      exact le_trans hab hbc)
    (fun a b => by
      simp only [Bool.or_eq_true, decide_eq_true_eq]
      exact le_total _ _)
    l
  exact h.imp (fun hab => by simpa using hab)

/-- Claim C2: the sequence returned by the query pipeline is sorted
non-decreasing by the computed distance, and every element's distance is at
most the requested (finite) radius. -/
theorem c2_query_sorted_within_radius (stores : List Store) (lat lng radius : ℚ)
    (healthyOnly storeType : String) (limit : JsNum) :
    List.Sorted (fun a b : StoreWithDistance => a.distance_m ≤ b.distance_m)
      (queryStores stores lat lng (JsNum.fin radius) healthyOnly storeType limit) ∧
    ∀ x ∈ queryStores stores lat lng (JsNum.fin radius) healthyOnly storeType limit,
      x.distance_m ≤ (radius : ℝ) := by
  constructor
  · simp only [queryStores]
    split
    · exact List.Pairwise.sublist (List.take_sublist _ _) (sorted_by_distance _)
    · exact sorted_by_distance _
  · intro x hx
    simp only [queryStores] at hx
    have hmem : ∀ (l : List StoreWithDistance),
        x ∈ l.filter (fun s => jsLeRad s.distance_m (JsNum.fin radius)) →
          x.distance_m ≤ (radius : ℝ) := by
      intro l hl
      have := List.of_mem_filter hl
      simpa [jsLeRad] using this
    split at hx
    · exact hmem _ (List.mem_mergeSort.mp (List.mem_of_mem_take hx))
    · exact hmem _ (List.mem_mergeSort.mp hx)

/-- Claim C2 witness: the property at a concrete (empty) collection. -/
theorem c2_witness :
    List.Sorted (fun a b : StoreWithDistance => a.distance_m ≤ b.distance_m)
      (queryStores [] 0 0 (JsNum.fin 1609) "any" "" (JsNum.fin 200)) ∧
    ∀ x ∈ queryStores [] 0 0 (JsNum.fin 1609) "any" "" (JsNum.fin 200),
      x.distance_m ≤ ((1609 : ℚ) : ℝ) :=
  c2_query_sorted_within_radius [] 0 0 1609 "any" "" (JsNum.fin 200)

/-- Claim C4: when the raw limit is not the unlimited sentinel and parses to
a positive integer `n`, the pipeline returns at most `n` elements; and an
invalid (unparsable) or non-positive limit makes the effective limit the
default 200, not unlimited. -/
theorem c4_limit_cap (stores : List Store) (lat lng : ℚ) (radius : JsNum)
    (healthyOnly storeType : String) (raw : String) :
    (∀ n : ℤ, jsToLower raw ≠ "unlimited" → parseIntJs raw = some n → 0 < n →
      (queryStores stores lat lng radius healthyOnly storeType (effectiveLimit raw)).length ≤
        n.toNat) ∧
    (((parseIntJs raw = none ∧ jsToLower raw ≠ "unlimited") ∨
        (∃ n, parseIntJs raw = some n ∧ n ≤ 0)) →
      effectiveLimit raw = JsNum.fin 200) := by
  constructor
  · intro n hu hp hpos
    have hle : jsLe (JsNum.fin (n : ℚ)) (JsNum.fin 0) = false := by
      simp only [jsLe, decide_eq_false_iff_not, not_le]
      exact_mod_cast hpos
    have heff : effectiveLimit raw = JsNum.fin (n : ℚ) := by
      simp only [effectiveLimit]
      rw [if_neg hu, hp]
      simp [JsNum.isFinite, hle]
    have hsc : JsNum.sliceCount (JsNum.fin (n : ℚ)) = n.toNat := by
      simp [JsNum.sliceCount, Int.floor_intCast]
    rw [heff]
    simp only [queryStores, JsNum.isFinite, if_true, hsc, List.length_take]
    omega
  · intro h
    rcases h with ⟨hnone, hu⟩ | ⟨n, hp, hn⟩
    · simp only [effectiveLimit]
      rw [if_neg hu, hnone]
      simp [JsNum.isFinite]
    · by_cases hu : jsToLower raw = "unlimited"
      · simp only [effectiveLimit]
        rw [if_pos hu]
        simp [JsNum.isFinite]
      · have hle : jsLe (JsNum.fin (n : ℚ)) (JsNum.fin 0) = true := by
          simp only [jsLe, decide_eq_true_eq]
          exact_mod_cast hn
        simp only [effectiveLimit]
        rw [if_neg hu, hp]
        simp [JsNum.isFinite, hle]

/-- Claim C4 witness: a valid limit of 5 caps the (empty) result, and the
unparsable limit "abc" falls back to 200. -/
theorem c4_witness :
    (queryStores [] 0 0 JsNum.nan "any" "" (effectiveLimit "5")).length ≤ (5 : ℤ).toNat ∧
    effectiveLimit "abc" = JsNum.fin 200 :=
  ⟨(c4_limit_cap [] 0 0 JsNum.nan "any" "" "5").1 5 (by decide) (by decide) (by decide),
    (c4_limit_cap [] 0 0 JsNum.nan "any" "" "abc").2 (Or.inl ⟨by decide, by decide⟩)⟩

/-- A store at the origin used as a concrete test fixture. -/
def store0 : Store :=
  ⟨"", "", "", "", "", "", "", "", false, none, "", none, "", 0, 0⟩

/-- The NaN radius excludes everything from the radius filter. -/
theorem filter_nan_radius (l : List StoreWithDistance) :
    l.filter (fun s => jsLeRad s.distance_m JsNum.nan) = [] := by
  induction l with
  | nil => rfl
  | cons a t ih => simp [List.filter_cons, jsLeRad, ih]

/-- Claim C7 counterexample: with a store at the origin and origin (0,0), an
unparsable radius parameter ("abc", parsing to NaN) yields an empty result,
while an absent radius parameter (default 1609) returns the store — the two
requests do not behave the same, and the unparsable radius is not replaced by
the default 1609. -/
theorem c7_counterexample :
    storesHandler [store0] ⟨some "0", some "0", some "abc", none, none, none⟩ =
      Except.ok [] ∧
    storesHandler [store0] ⟨some "0", some "0", none, none, none, none⟩ =
      Except.ok [⟨store0, 0⟩] ∧
    storesHandler [store0] ⟨some "0", some "0", some "abc", none, none, none⟩ ≠
      storesHandler [store0] ⟨some "0", some "0", none, none, none, none⟩ := by
  have h0 : parseFloatJs (jsOr (some "0") "0") = JsNum.fin 0 := by decide
  have habc : parseFloatJs (jsOr (some "abc") "1609") = JsNum.nan := by decide
  have hr : parseFloatJs (jsOr (none : Option String) "1609") = JsNum.fin 1609 := by decide
  have hlim : effectiveLimit (jsOr (none : Option String) "200") = JsNum.fin 200 := by decide
  have hh : jsToLower (jsOr (none : Option String) "any") = "any" := by decide
  have ht : jsTrim (jsOr (none : Option String) "") = "" := by decide
  have habc' :
      storesHandler [store0] ⟨some "0", some "0", some "abc", none, none, none⟩ =
        Except.ok [] := by
    simp only [storesHandler, h0, habc, hlim, hh, ht]
    simp only [queryStores, filter_nan_radius, List.mergeSort_nil, List.take_nil, ite_self]
  have hd : haversineMeters ((0 : ℚ) : ℝ) ((0 : ℚ) : ℝ) ((store0.latitude : ℚ) : ℝ)
      ((store0.longitude : ℚ) : ℝ) = 0 := by
    simp [store0, haversineMeters_self]
  have hdef :
      storesHandler [store0] ⟨some "0", some "0", none, none, none, none⟩ =
        Except.ok [⟨store0, 0⟩] := by
    simp only [storesHandler, h0, hr, hlim, hh, ht]
    simp only [queryStores]
    rw [if_neg (by decide : ¬("any" = "true")), if_neg (by decide : ¬("any" = "false")),
      if_neg (by simp : ¬("" ≠ ""))]
    simp only [List.map_cons, List.map_nil, hd]
    rw [List.filter_cons]
    rw [show jsLeRad (0 : ℝ) (JsNum.fin 1609) = true from by
      simp only [jsLeRad, decide_eq_true_eq]
      push_cast
      norm_num]
    simp [List.mergeSort_singleton, JsNum.isFinite, JsNum.sliceCount]
  refine ⟨habc', hdef, ?_⟩
  rw [habc', hdef]
  simp

/-- Claim C7 (amended): an absent (or empty) radius parameter defaults to
1609; but a supplied unparsable radius parses to NaN, and a NaN radius
excludes every store (the result is empty), so an unparsable radius does not
behave like an absent one. -/
theorem c7_radius_default_and_nan (stores : List Store) (q : StoresQuery) (lat lng : ℚ)
    (hq : q.radius = none) :
    parseFloatJs (jsOr q.radius "1609") = JsNum.fin 1609 ∧
    ∀ (healthyOnly storeType : String) (limit : JsNum),
      queryStores stores lat lng JsNum.nan healthyOnly storeType limit = [] := by
  constructor
  · rw [hq]; decide
  · intro healthyOnly storeType limit
    simp only [queryStores, filter_nan_radius, List.mergeSort_nil, List.take_nil, ite_self]

/-- Claim C7 witness: the amended statement at a concrete query. -/
theorem c7_witness :
    parseFloatJs (jsOr (none : Option String) "1609") = JsNum.fin 1609 ∧
    queryStores [store0] 0 0 JsNum.nan "any" "" (JsNum.fin 200) = [] := by
  have h := c7_radius_default_and_nan [store0] ⟨none, none, none, none, none, none⟩ 0 0 rfl
  exact ⟨h.1, h.2 "any" "" (JsNum.fin 200)⟩

end SnapWise
